import Mathlib

/-
Verification of the triple-barrier labeling and signal-generation engine
of the forex-ml-dashboard repository.

The embedding below is a shallow translation of:
  - src/src/labeling.py   (apply_triple_barrier_for_symbol)
  - src/src/signal_engine.py (generate_signals, per-row decision logic)
  - src/src/config.py     (the labeling and signal constants)

Prices, ATR values and probabilities are modelled as rationals.  A value
that can be NaN in the pandas frame (atr, vol_ratio, trend_strength) is
modelled as an Option: none plays the role of NaN, and every NaN test of
the source (np.isnan / pd.isna) becomes a match on the Option.  All the
decimal constants that appear in the source (0.5, 0.7, 1.3, 0.8, 1.2,
1.5, 1.8, 2.5) multiply the exact values 10 or small rationals at the
configured defaults, where their float images are exact (10*0.5 = 5.0,
10*0.7 = 7.0, 10*1.3 = 13.0 hold exactly in binary64), so rational
arithmetic agrees with the float arithmetic of the source at those
points.  Python int() on the non-negative quantities involved is floor.
-/

namespace ForexEngine

/-- Kind of barrier hit: take-profit or stop-loss. -/
inductive HitKind where
  | tp : HitKind
  | sl : HitKind
deriving DecidableEq, Repr

/-- One OHLC bar together with its regime columns, as consumed by
apply_triple_barrier_for_symbol.  none models a NaN entry. -/
structure Bar where
  high : ℚ
  low : ℚ
  close : ℚ
  atr : Option ℚ
  vol_ratio : Option ℚ
  trend_strength : Option ℚ
deriving DecidableEq, Repr

/-- The labeling / signal configuration constants of src/config.py. -/
structure Config where
  tp_atr_mult : ℚ
  sl_atr_mult : ℚ
  min_horizon : ℕ
  max_horizon : ℕ
  confidence_threshold : ℚ
deriving DecidableEq, Repr

/-- The default values of src/config.py: TP_ATR_MULT = 1.8,
SL_ATR_MULT = 1.0, MIN_HORIZON_DAYS = 3, MAX_HORIZON_DAYS = 10,
CONFIDENCE_THRESHOLD = 0.7. -/
def defaultConfig : Config :=
  { tp_atr_mult := 9/5
    sl_atr_mult := 1
    min_horizon := 3
    max_horizon := 10
    confidence_threshold := 7/10 }

/-- labeling.py lines 75-80: take-profit multiple from the regime
snapshot (vr and ts are the NaN-defaulted vol_ratio and
trend_strength). -/
def selectTpMult (cfg : Config) (vr ts : ℚ) : ℚ :=
  if ts > 30 then 5/2
  else if vr < 4/5 then 3/2
  else cfg.tp_atr_mult

/-- labeling.py line 83: the stop-loss multiple stays the configured
constant, whatever the regime. -/
def selectSlMult (cfg : Config) (_vr _ts : ℚ) : ℚ :=
  cfg.sl_atr_mult

/-- labeling.py lines 95-102: volatility-adjusted horizon.  Python
int() truncates; on the non-negative values here that is the floor. -/
def selectHorizon (cfg : Config) (vr : ℚ) : ℕ :=
  if vr > 3/2 then max cfg.min_horizon (Nat.floor ((cfg.max_horizon : ℚ) * (1/2)))
  else if vr > 6/5 then max cfg.min_horizon (Nat.floor ((cfg.max_horizon : ℚ) * (7/10)))
  else if vr < 4/5 then min (Nat.floor ((cfg.max_horizon : ℚ) * (13/10))) 13
  else cfg.max_horizon

/-- A bar value used as the List.getD default; the scan never reads an
out-of-range index, so it is never observed. -/
def dummyBar : Bar :=
  { high := 0, low := 0, close := 0, atr := none, vol_ratio := none, trend_strength := none }

/-- labeling.py lines 104-106: the indices j of Python
range(i+1, min(i+horizon+1, n)). -/
def windowIdx (i horizon n : ℕ) : List ℕ :=
  List.range' (i + 1) (min (i + horizon + 1) n - (i + 1))

/-- The forward-scan window: each index paired with the bar the source
reads at high[j] / low[j]. -/
def windowBars (bars : List Bar) (i horizon : ℕ) : List (ℕ × Bar) :=
  (windowIdx i horizon bars.length).map (fun j => (j, bars.getD j dummyBar))

/-- labeling.py lines 119-123: one iteration of the long-hypothesis
check; a previously resolved outcome is kept, otherwise take-profit is
tested before stop-loss. -/
def stepLong (tpL slL : ℚ) (p : ℕ × Bar) (h : Option (ℕ × HitKind)) :
    Option (ℕ × HitKind) :=
  match h with
  | some x => some x
  | none =>
    if p.2.high ≥ tpL then some (p.1, HitKind.tp)
    else if p.2.low ≤ slL then some (p.1, HitKind.sl)
    else none

/-- labeling.py lines 126-130: one iteration of the short-hypothesis
check. -/
def stepShort (tpS slS : ℚ) (p : ℕ × Bar) (h : Option (ℕ × HitKind)) :
    Option (ℕ × HitKind) :=
  match h with
  | some x => some x
  | none =>
    if p.2.low ≤ tpS then some (p.1, HitKind.tp)
    else if p.2.high ≥ slS then some (p.1, HitKind.sl)
    else none

/-- labeling.py lines 117-134: the imperative scan loop, with the
early break once both hypotheses are resolved. -/
def scanPair (tpL slL tpS slS : ℚ) :
    List (ℕ × Bar) → Option (ℕ × HitKind) → Option (ℕ × HitKind) →
    Option (ℕ × HitKind) × Option (ℕ × HitKind)
  | [], hL, hS => (hL, hS)
  | p :: rest, hL, hS =>
    let hL2 := stepLong tpL slL p hL
    let hS2 := stepShort tpS slS p hS
    if hL2.isSome && hS2.isSome then (hL2, hS2)
    else scanPair tpL slL tpS slS rest hL2 hS2

/-- The first bar of a window that resolves the long hypothesis,
take-profit tested before stop-loss (the per-hypothesis meaning of the
loop, proved equal to scanPair below). -/
def firstHitLong (tpL slL : ℚ) : List (ℕ × Bar) → Option (ℕ × HitKind)
  | [] => none
  | p :: rest =>
    if p.2.high ≥ tpL then some (p.1, HitKind.tp)
    else if p.2.low ≤ slL then some (p.1, HitKind.sl)
    else firstHitLong tpL slL rest

/-- The first bar of a window that resolves the short hypothesis. -/
def firstHitShort (tpS slS : ℚ) : List (ℕ × Bar) → Option (ℕ × HitKind)
  | [] => none
  | p :: rest =>
    if p.2.low ≤ tpS then some (p.1, HitKind.tp)
    else if p.2.high ≥ slS then some (p.1, HitKind.sl)
    else firstHitShort tpS slS rest

/-- labeling.py lines 145-149: outcome score, +1 take-profit,
-1 stop-loss, 0 no hit. -/
def hitScore : Option (ℕ × HitKind) → ℤ
  | none => 0
  | some (_, HitKind.tp) => 1
  | some (_, HitKind.sl) => -1

/-- labeling.py lines 136-157: the label resolver, including the
explicit both-none shortcut of the source. -/
def resolveLabel (hL hS : Option (ℕ × HitKind)) : ℤ :=
  if hL.isNone && hS.isNone then 0
  else
    let lo := hitScore hL
    let so := hitScore hS
    if lo > so then 1
    else if so > lo then -1
    else 0

/-- labeling.py lines 61-157 for one candle, with the entry bar passed
explicitly: skip on NaN or zero ATR, NaN regime values defaulted to
1.0 / 0.0, barriers, horizon, the start >= n guard, scan and resolve. -/
def labelCore (cfg : Config) (bars : List Bar) (i : ℕ) (b : Bar) : ℤ :=
  match b.atr with
  | none => 0
  | some a =>
    if a = 0 then 0
    else
      let vr := b.vol_ratio.getD 1
      let ts := b.trend_strength.getD 0
      let tp_mult := selectTpMult cfg vr ts
      let sl_mult := selectSlMult cfg vr ts
      let tpL := b.close + tp_mult * a
      let slL := b.close - sl_mult * a
      let tpS := b.close - tp_mult * a
      let slS := b.close + sl_mult * a
      let horizon := selectHorizon cfg vr
      if bars.length ≤ i + 1 then 0
      else
        let r := scanPair tpL slL tpS slS (windowBars bars i horizon) none none
        resolveLabel r.1 r.2

/-- The label of candle i of a series. -/
def labelAt (cfg : Config) (bars : List Bar) (i : ℕ) : ℤ :=
  labelCore cfg bars i (bars.getD i dummyBar)

/-- The whole label column: one label per input bar. -/
def labelSeries (cfg : Config) (bars : List Bar) : List ℤ :=
  (List.range bars.length).map (labelAt cfg bars)

/-- Signal direction of signal_engine.py (the source uses the strings
LONG / SHORT / NONE). -/
inductive Direction where
  | LONG : Direction
  | SHORT : Direction
  | NONE : Direction
deriving DecidableEq, Repr

/-- One model-scored row of generate_signals: probability of the long
win, entry close and ATR (none models NaN). -/
structure SignalRow where
  prob : ℚ
  close : ℚ
  atr : Option ℚ
deriving DecidableEq, Repr

/-- An emitted signal record (the numeric and categorical fields of the
dict built in signal_engine.py lines 108-119). -/
structure Signal where
  direction : Direction
  confidence : ℚ
  prob_long : ℚ
  entry_price : ℚ
  tp_price : ℚ
  sl_price : ℚ
  atr : ℚ
  risk_reward : ℚ
deriving DecidableEq, Repr

/-- signal_engine.py lines 80-88: direction and confidence from the
probability and the threshold. -/
def decideDirection (t p : ℚ) : Direction × ℚ :=
  if p ≥ t then (Direction.LONG, p)
  else if p ≤ 1 - t then (Direction.SHORT, 1 - p)
  else (Direction.NONE, max p (1 - p))

/-- signal_engine.py lines 79-121 for one row: NONE rows and rows with
NaN or zero ATR emit nothing; otherwise the signal record is built
with the flat configured multiples (TP_ATR_MULT / SL_ATR_MULT). -/
def signalForRow (cfg : Config) (t : ℚ) (r : SignalRow) : Option Signal :=
  let dc := decideDirection t r.prob
  if dc.1 = Direction.NONE then none
  else
    match r.atr with
    | none => none
    | some a =>
      if a = 0 then none
      else
        let tp_price :=
          if dc.1 = Direction.LONG then r.close + cfg.tp_atr_mult * a
          else r.close - cfg.tp_atr_mult * a
        let sl_price :=
          if dc.1 = Direction.LONG then r.close - cfg.sl_atr_mult * a
          else r.close + cfg.sl_atr_mult * a
        some
          { direction := dc.1
            confidence := dc.2
            prob_long := r.prob
            entry_price := r.close
            tp_price := tp_price
            sl_price := sl_price
            atr := a
            risk_reward := cfg.tp_atr_mult / cfg.sl_atr_mult }

/-- The signal list produced from a sequence of scored rows (the inner
loop of generate_signals, rows that emit nothing are dropped). -/
def generateSignals (cfg : Config) (t : ℚ) (rows : List SignalRow) : List Signal :=
  rows.filterMap (signalForRow cfg t)

/-- One row of the per-symbol feature frame before the dropna filter
of signal_engine.py line 64: the model probability, the entry close,
and the three feature columns this embedding carries.  atr, vol_ratio
and trend_strength are all feature columns (features.py lines 173 and
199, and get_feature_columns excludes only time, symbol, OHLC, label
and target), so a NaN in any of them is covered by the filter. -/
structure FeatureRow where
  prob : ℚ
  close : ℚ
  atr : Option ℚ
  vol_ratio : Option ℚ
  trend_strength : Option ℚ
deriving DecidableEq, Repr

/-- The fields of a feature row that the per-row decision loop then
reads. -/
def FeatureRow.toSignalRow (fr : FeatureRow) : SignalRow :=
  { prob := fr.prob, close := fr.close, atr := fr.atr }

/-- signal_engine.py line 64: dropna(subset=feature_names) keeps only
the rows with no NaN in any feature column. -/
def dropnaRows (rows : List FeatureRow) : List FeatureRow :=
  rows.filter (fun r => r.atr.isSome && r.vol_ratio.isSome && r.trend_strength.isSome)

/-- generate_signals for one symbol: the dropna row filter followed by
the per-row decision loop. -/
def generateSignalsFeatures (cfg : Config) (t : ℚ) (rows : List FeatureRow) :
    List Signal :=
  generateSignals cfg t ((dropnaRows rows).map FeatureRow.toSignalRow)

/-- First-match combination of two optional outcomes: a hypothesis
already resolved stays resolved. -/
def hitOr (a b : Option (ℕ × HitKind)) : Option (ℕ × HitKind) :=
  match a with
  | some x => some x
  | none => b

/-- The take-profit multiple as stated by the spec, written from the
spec words of section 4.1 (trend override 2.5, low-volatility 1.5,
default 1.8). -/
def specTpMult (vr ts : ℚ) : ℚ :=
  if ts > 30 then 5/2
  else if vr < 4/5 then 3/2
  else 9/5

/-- The horizon as stated by the spec, written from the spec words of
section 4.1, with rounding (round) where the spec says round. -/
def specHorizon (minH maxH : ℕ) (vr : ℚ) : ℕ :=
  if vr > 3/2 then max minH (round ((maxH : ℚ) * (1/2))).toNat
  else if vr > 6/5 then max minH (round ((maxH : ℚ) * (7/10))).toNat
  else if vr < 4/5 then min (round ((maxH : ℚ) * (13/10))).toNat 13
  else maxH

/-! ### Helper lemmas about the scan loop -/

theorem hitOr_none_right (a : Option (ℕ × HitKind)) : hitOr a none = a := by
  cases a <;> rfl

theorem hitOr_of_isSome (a b : Option (ℕ × HitKind)) (h : a.isSome = true) :
    hitOr a b = a := by
  cases a with
  | none => simp at h
  | some x => rfl

theorem hitOr_assoc (a b c : Option (ℕ × HitKind)) :
    hitOr (hitOr a b) c = hitOr a (hitOr b c) := by
  cases a <;> cases b <;> rfl

theorem stepLong_eq_hitOr (tpL slL : ℚ) (p : ℕ × Bar) (h : Option (ℕ × HitKind)) :
    stepLong tpL slL p h = hitOr h (stepLong tpL slL p none) := by
  cases h <;> rfl

theorem stepShort_eq_hitOr (tpS slS : ℚ) (p : ℕ × Bar) (h : Option (ℕ × HitKind)) :
    stepShort tpS slS p h = hitOr h (stepShort tpS slS p none) := by
  cases h <;> rfl

theorem firstHitLong_cons (tpL slL : ℚ) (p : ℕ × Bar) (rest : List (ℕ × Bar)) :
    firstHitLong tpL slL (p :: rest) =
      hitOr (stepLong tpL slL p none) (firstHitLong tpL slL rest) := by
  show (if p.2.high ≥ tpL then some (p.1, HitKind.tp)
        else if p.2.low ≤ slL then some (p.1, HitKind.sl)
        else firstHitLong tpL slL rest) = _
  unfold stepLong
  split
  · rfl
  · split <;> rfl

theorem firstHitShort_cons (tpS slS : ℚ) (p : ℕ × Bar) (rest : List (ℕ × Bar)) :
    firstHitShort tpS slS (p :: rest) =
      hitOr (stepShort tpS slS p none) (firstHitShort tpS slS rest) := by
  show (if p.2.low ≤ tpS then some (p.1, HitKind.tp)
        else if p.2.high ≥ slS then some (p.1, HitKind.sl)
        else firstHitShort tpS slS rest) = _
  unfold stepShort
  split
  · rfl
  · split <;> rfl

/-- The imperative loop of labeling.py computes, for each hypothesis,
exactly the first-hit function of the window, whatever outcomes are
already accumulated (the early break never changes the result). -/
theorem scanPair_eq (tpL slL tpS slS : ℚ) :
    ∀ (l : List (ℕ × Bar)) (hL hS : Option (ℕ × HitKind)),
      scanPair tpL slL tpS slS l hL hS =
        (hitOr hL (firstHitLong tpL slL l), hitOr hS (firstHitShort tpS slS l)) := by
  intro l
  induction l with
  | nil =>
    intro hL hS
    simp [scanPair, firstHitLong, firstHitShort, hitOr_none_right]
  | cons p rest ih =>
    intro hL hS
    have hLchain : hitOr hL (firstHitLong tpL slL (p :: rest)) =
        hitOr (stepLong tpL slL p hL) (firstHitLong tpL slL rest) := by
      cases hL with
      | some a => rfl
      | none => exact firstHitLong_cons tpL slL p rest
    have hSchain : hitOr hS (firstHitShort tpS slS (p :: rest)) =
        hitOr (stepShort tpS slS p hS) (firstHitShort tpS slS rest) := by
      cases hS with
      | some a => rfl
      | none => exact firstHitShort_cons tpS slS p rest
    show (if (stepLong tpL slL p hL).isSome && (stepShort tpS slS p hS).isSome
            then (stepLong tpL slL p hL, stepShort tpS slS p hS)
            else scanPair tpL slL tpS slS rest (stepLong tpL slL p hL)
              (stepShort tpS slS p hS)) = _
    by_cases hb : ((stepLong tpL slL p hL).isSome && (stepShort tpS slS p hS).isSome) = true
    · rw [if_pos hb]
      obtain ⟨h1, h2⟩ := Bool.and_eq_true_iff.mp hb
      rw [hLchain, hSchain, hitOr_of_isSome _ _ h1, hitOr_of_isSome _ _ h2]
    · rw [if_neg hb, ih, hLchain, hSchain]

/-- firstHitLong returns none exactly when no bar of the window
triggers either long barrier. -/
theorem firstHitLong_eq_none_iff (tpL slL : ℚ) (l : List (ℕ × Bar)) :
    firstHitLong tpL slL l = none ↔
      ∀ p ∈ l, p.2.high < tpL ∧ slL < p.2.low := by
  induction l with
  | nil => simp [firstHitLong]
  | cons p rest ih =>
    show (if p.2.high ≥ tpL then some (p.1, HitKind.tp)
          else if p.2.low ≤ slL then some (p.1, HitKind.sl)
          else firstHitLong tpL slL rest) = none ↔ _
    by_cases h1 : p.2.high ≥ tpL
    · simp [h1]
    · by_cases h2 : p.2.low ≤ slL
      · simp [h1, h2]
      · simp [h1, h2, ih, not_le.mp h1, not_le.mp h2]

/-- firstHitShort returns none exactly when no bar of the window
triggers either short barrier. -/
theorem firstHitShort_eq_none_iff (tpS slS : ℚ) (l : List (ℕ × Bar)) :
    firstHitShort tpS slS l = none ↔
      ∀ p ∈ l, tpS < p.2.low ∧ p.2.high < slS := by
  induction l with
  | nil => simp [firstHitShort]
  | cons p rest ih =>
    show (if p.2.low ≤ tpS then some (p.1, HitKind.tp)
          else if p.2.high ≥ slS then some (p.1, HitKind.sl)
          else firstHitShort tpS slS rest) = none ↔ _
    by_cases h1 : p.2.low ≤ tpS
    · simp [h1]
    · by_cases h2 : p.2.high ≥ slS
      · simp [h1, h2]
      · simp [h1, h2, ih, not_le.mp h1, not_le.mp h2]

/-- If every bar before p triggers neither long barrier and p triggers
one of them, the long hypothesis resolves at p, take-profit tested
first. -/
theorem firstHitLong_append (tpL slL : ℚ) :
    ∀ (l1 : List (ℕ × Bar)) (p : ℕ × Bar) (l2 : List (ℕ × Bar)),
      (∀ q ∈ l1, q.2.high < tpL ∧ slL < q.2.low) →
      (tpL ≤ p.2.high ∨ p.2.low ≤ slL) →
      firstHitLong tpL slL (l1 ++ p :: l2) =
        some (p.1, if tpL ≤ p.2.high then HitKind.tp else HitKind.sl) := by
  intro l1
  induction l1 with
  | nil =>
    intro p l2 _ htrig
    show (if p.2.high ≥ tpL then some (p.1, HitKind.tp)
          else if p.2.low ≤ slL then some (p.1, HitKind.sl)
          else firstHitLong tpL slL l2) = _
    by_cases h1 : tpL ≤ p.2.high
    · simp [ge_iff_le, h1]
    · rcases htrig with h | h
      · exact absurd h h1
      · simp [ge_iff_le, h1, h]
  | cons q rest ih =>
    intro p l2 hquiet htrig
    have hq := hquiet q (List.mem_cons_self q rest)
    show (if q.2.high ≥ tpL then some (q.1, HitKind.tp)
          else if q.2.low ≤ slL then some (q.1, HitKind.sl)
          else firstHitLong tpL slL (rest ++ p :: l2)) = _
    rw [if_neg (not_le.mpr hq.1), if_neg (not_le.mpr hq.2)]
    exact ih p l2 (fun r hr => hquiet r (List.mem_cons_of_mem q hr)) htrig

/-- If every bar before p triggers neither short barrier and p
triggers one of them, the short hypothesis resolves at p, take-profit
tested first. -/
theorem firstHitShort_append (tpS slS : ℚ) :
    ∀ (l1 : List (ℕ × Bar)) (p : ℕ × Bar) (l2 : List (ℕ × Bar)),
      (∀ q ∈ l1, tpS < q.2.low ∧ q.2.high < slS) →
      (p.2.low ≤ tpS ∨ slS ≤ p.2.high) →
      firstHitShort tpS slS (l1 ++ p :: l2) =
        some (p.1, if p.2.low ≤ tpS then HitKind.tp else HitKind.sl) := by
  intro l1
  induction l1 with
  | nil =>
    intro p l2 _ htrig
    show (if p.2.low ≤ tpS then some (p.1, HitKind.tp)
          else if p.2.high ≥ slS then some (p.1, HitKind.sl)
          else firstHitShort tpS slS l2) = _
    by_cases h1 : p.2.low ≤ tpS
    · simp [h1]
    · rcases htrig with h | h
      · exact absurd h h1
      · simp [ge_iff_le, h1, h]
  | cons q rest ih =>
    intro p l2 hquiet htrig
    have hq := hquiet q (List.mem_cons_self q rest)
    show (if q.2.low ≤ tpS then some (q.1, HitKind.tp)
          else if q.2.high ≥ slS then some (q.1, HitKind.sl)
          else firstHitShort tpS slS (rest ++ p :: l2)) = _
    rw [if_neg (not_le.mpr hq.1), if_neg (not_le.mpr hq.2)]
    exact ih p l2 (fun r hr => hquiet r (List.mem_cons_of_mem q hr)) htrig

/-! ### Helper lemmas about the window -/

theorem mem_windowIdx_iff (i h n j : ℕ) :
    j ∈ windowIdx i h n ↔ i + 1 ≤ j ∧ j ≤ i + h ∧ j < n := by
  unfold windowIdx
  rw [List.mem_range'_1]
  omega

theorem pairwise_range' : ∀ (c s : ℕ), List.Pairwise (· < ·) (List.range' s c) := by
  intro c
  induction c with
  | zero => intro s; simp
  | succ m ih =>
    intro s
    rw [List.range'_succ]
    refine List.Pairwise.cons ?_ (ih (s + 1))
    intro b hb
    have := List.mem_range'_1.mp hb
    omega

theorem mem_windowBars_iff (bars : List Bar) (i h : ℕ) (p : ℕ × Bar) :
    p ∈ windowBars bars i h ↔
      (i + 1 ≤ p.1 ∧ p.1 ≤ i + h ∧ p.1 < bars.length ∧
        p.2 = bars.getD p.1 dummyBar) := by
  unfold windowBars
  rw [List.mem_map]
  constructor
  · rintro ⟨j, hj, rfl⟩
    have := (mem_windowIdx_iff i h bars.length j).mp hj
    exact ⟨this.1, this.2.1, this.2.2, rfl⟩
  · rintro ⟨h1, h2, h3, h4⟩
    exact ⟨p.1, (mem_windowIdx_iff i h bars.length p.1).mpr ⟨h1, h2, h3⟩,
      by rw [← h4]⟩

theorem getD_eq_get? (bars : List Bar) (j : ℕ) (hj : j < bars.length) :
    bars.get? j = some (bars.getD j dummyBar) := by
  induction bars generalizing j with
  | nil => simp at hj
  | cons b rest ih =>
    cases j with
    | zero => rfl
    | succ m =>
      simp only [List.length_cons, Nat.succ_lt_succ_iff] at hj
      simpa [List.get?, List.getD] using ih m hj

theorem map_fst_windowBars (bars : List Bar) (i h : ℕ) :
    (windowBars bars i h).map Prod.fst = windowIdx i h bars.length := by
  unfold windowBars
  rw [List.map_map]
  exact List.map_id _

/-! ### Evaluation lemmas for the decision engine -/

theorem decideDirection_long (t p : ℚ) (h : t ≤ p) :
    decideDirection t p = (Direction.LONG, p) := by
  unfold decideDirection
  rw [if_pos h]

theorem decideDirection_short (t p : ℚ) (h1 : ¬ t ≤ p) (h2 : p ≤ 1 - t) :
    decideDirection t p = (Direction.SHORT, 1 - p) := by
  unfold decideDirection
  rw [if_neg h1, if_pos h2]

theorem decideDirection_none (t p : ℚ) (h1 : ¬ t ≤ p) (h2 : ¬ p ≤ 1 - t) :
    decideDirection t p = (Direction.NONE, max p (1 - p)) := by
  unfold decideDirection
  rw [if_neg h1, if_neg h2]

theorem signalForRow_long (cfg : Config) (t : ℚ) (r : SignalRow) (a : ℚ)
    (ha : r.atr = some a) (haz : a ≠ 0) (h : t ≤ r.prob) :
    signalForRow cfg t r = some
      { direction := Direction.LONG
        confidence := r.prob
        prob_long := r.prob
        entry_price := r.close
        tp_price := r.close + cfg.tp_atr_mult * a
        sl_price := r.close - cfg.sl_atr_mult * a
        atr := a
        risk_reward := cfg.tp_atr_mult / cfg.sl_atr_mult } := by
  unfold signalForRow
  rw [decideDirection_long t r.prob h, ha]
  simp [haz]

theorem signalForRow_short (cfg : Config) (t : ℚ) (r : SignalRow) (a : ℚ)
    (ha : r.atr = some a) (haz : a ≠ 0) (h1 : ¬ t ≤ r.prob) (h2 : r.prob ≤ 1 - t) :
    signalForRow cfg t r = some
      { direction := Direction.SHORT
        confidence := 1 - r.prob
        prob_long := r.prob
        entry_price := r.close
        tp_price := r.close - cfg.tp_atr_mult * a
        sl_price := r.close + cfg.sl_atr_mult * a
        atr := a
        risk_reward := cfg.tp_atr_mult / cfg.sl_atr_mult } := by
  unfold signalForRow
  rw [decideDirection_short t r.prob h1 h2, ha]
  simp [haz]

theorem signalForRow_none (cfg : Config) (t : ℚ) (r : SignalRow)
    (h1 : ¬ t ≤ r.prob) (h2 : ¬ r.prob ≤ 1 - t) :
    signalForRow cfg t r = none := by
  unfold signalForRow
  rw [decideDirection_none t r.prob h1 h2]
  simp

theorem signalForRow_atr_invalid (cfg : Config) (t : ℚ) (r : SignalRow)
    (ha : r.atr = none ∨ r.atr = some 0) :
    signalForRow cfg t r = none := by
  unfold signalForRow
  rcases ha with ha | ha <;> rw [ha] <;> simp

/-- Every emitted record is one of the two directional branch
records. -/
theorem signalForRow_some_elim (cfg : Config) (t : ℚ) (r : SignalRow) (s : Signal)
    (hs : signalForRow cfg t r = some s) :
    s.prob_long = r.prob ∧
    ((t ≤ r.prob ∧ s.direction = Direction.LONG ∧ s.confidence = r.prob) ∨
      (¬ t ≤ r.prob ∧ r.prob ≤ 1 - t ∧ s.direction = Direction.SHORT ∧
        s.confidence = 1 - r.prob)) := by
  rcases hatr : r.atr with _ | a
  · rw [signalForRow_atr_invalid cfg t r (Or.inl hatr)] at hs
    exact absurd hs (by simp)
  · by_cases haz : a = 0
    · rw [signalForRow_atr_invalid cfg t r (Or.inr (haz ▸ hatr))] at hs
      exact absurd hs (by simp)
    · by_cases h1 : t ≤ r.prob
      · rw [signalForRow_long cfg t r a hatr haz h1] at hs
        obtain rfl := Option.some_injective _ hs
        exact ⟨rfl, Or.inl ⟨h1, rfl, rfl⟩⟩
      · by_cases h2 : r.prob ≤ 1 - t
        · rw [signalForRow_short cfg t r a hatr haz h1 h2] at hs
          obtain rfl := Option.some_injective _ hs
          exact ⟨rfl, Or.inr ⟨h1, h2, rfl, rfl⟩⟩
        · rw [signalForRow_none cfg t r h1 h2] at hs
          exact absurd hs (by simp)

/-- Every emitted record carries the flat configured risk-reward
quotient. -/
theorem signalForRow_risk (cfg : Config) (t : ℚ) (r : SignalRow) (s : Signal)
    (hs : signalForRow cfg t r = some s) :
    s.risk_reward = cfg.tp_atr_mult / cfg.sl_atr_mult := by
  rcases hatr : r.atr with _ | a
  · rw [signalForRow_atr_invalid cfg t r (Or.inl hatr)] at hs
    exact absurd hs (by simp)
  · by_cases haz : a = 0
    · rw [signalForRow_atr_invalid cfg t r (Or.inr (haz ▸ hatr))] at hs
      exact absurd hs (by simp)
    · by_cases h1 : t ≤ r.prob
      · rw [signalForRow_long cfg t r a hatr haz h1] at hs
        obtain rfl := Option.some_injective _ hs
        rfl
      · by_cases h2 : r.prob ≤ 1 - t
        · rw [signalForRow_short cfg t r a hatr haz h1 h2] at hs
          obtain rfl := Option.some_injective _ hs
          rfl
        · rw [signalForRow_none cfg t r h1 h2] at hs
          exact absurd hs (by simp)

theorem dropnaRows_append (l1 l2 : List FeatureRow) :
    dropnaRows (l1 ++ l2) = dropnaRows l1 ++ dropnaRows l2 := by
  unfold dropnaRows
  simp [List.filter_append]

theorem dropnaRows_cons_nan (fr : FeatureRow) (rows : List FeatureRow)
    (h : (fr.atr.isSome && fr.vol_ratio.isSome && fr.trend_strength.isSome) = false) :
    dropnaRows (fr :: rows) = dropnaRows rows := by
  unfold dropnaRows
  simp [List.filter_cons, h]

/-- A row with a NaN in any of the modelled feature columns is removed
by the dropna filter and emits nothing: the signal list does not
depend on it. -/
theorem generateSignalsFeatures_drops_nan (cfg : Config) (t : ℚ)
    (pre post : List FeatureRow) (fr : FeatureRow)
    (hna : fr.atr = none ∨ fr.vol_ratio = none ∨ fr.trend_strength = none) :
    generateSignalsFeatures cfg t (pre ++ fr :: post) =
      generateSignalsFeatures cfg t (pre ++ post) := by
  have hcond : (fr.atr.isSome && fr.vol_ratio.isSome && fr.trend_strength.isSome)
      = false := by
    rcases hna with h | h | h <;> simp [h]
  unfold generateSignalsFeatures
  rw [dropnaRows_append, dropnaRows_cons_nan fr post hcond, ← dropnaRows_append]

/-! ### Evaluation lemmas for the labeler -/

theorem labelCore_atr_none (cfg : Config) (bars : List Bar) (i : ℕ) (b : Bar)
    (h : b.atr = none) : labelCore cfg bars i b = 0 := by
  unfold labelCore
  rw [h]

theorem labelCore_atr_zero (cfg : Config) (bars : List Bar) (i : ℕ) (b : Bar)
    (h : b.atr = some 0) : labelCore cfg bars i b = 0 := by
  unfold labelCore
  rw [h]
  simp

/-- A NaN vol_ratio is replaced by the neutral default 1.0; the bar is
processed, not skipped. -/
theorem labelCore_vol_default (cfg : Config) (bars : List Bar) (i : ℕ) (b : Bar) :
    labelCore cfg bars i { b with vol_ratio := none } =
      labelCore cfg bars i { b with vol_ratio := some 1 } := rfl

/-- A NaN trend_strength is replaced by the neutral default 0.0; the
bar is processed, not skipped. -/
theorem labelCore_trend_default (cfg : Config) (bars : List Bar) (i : ℕ) (b : Bar) :
    labelCore cfg bars i { b with trend_strength := none } =
      labelCore cfg bars i { b with trend_strength := some 0 } := rfl

theorem labelCore_eval (cfg : Config) (bars : List Bar) (i : ℕ) (b : Bar) (a : ℚ)
    (ha : b.atr = some a) (haz : ¬ a = 0) (hlen : ¬ bars.length ≤ i + 1) :
    labelCore cfg bars i b =
      resolveLabel
        (scanPair (b.close + selectTpMult cfg (b.vol_ratio.getD 1) (b.trend_strength.getD 0) * a)
          (b.close - selectSlMult cfg (b.vol_ratio.getD 1) (b.trend_strength.getD 0) * a)
          (b.close - selectTpMult cfg (b.vol_ratio.getD 1) (b.trend_strength.getD 0) * a)
          (b.close + selectSlMult cfg (b.vol_ratio.getD 1) (b.trend_strength.getD 0) * a)
          (windowBars bars i (selectHorizon cfg (b.vol_ratio.getD 1))) none none).1
        (scanPair (b.close + selectTpMult cfg (b.vol_ratio.getD 1) (b.trend_strength.getD 0) * a)
          (b.close - selectSlMult cfg (b.vol_ratio.getD 1) (b.trend_strength.getD 0) * a)
          (b.close - selectTpMult cfg (b.vol_ratio.getD 1) (b.trend_strength.getD 0) * a)
          (b.close + selectSlMult cfg (b.vol_ratio.getD 1) (b.trend_strength.getD 0) * a)
          (windowBars bars i (selectHorizon cfg (b.vol_ratio.getD 1))) none none).2 := by
  unfold labelCore
  rw [ha]
  simp only [if_neg haz, if_neg hlen]

/-! ### Concrete values used by witnesses and counterexamples -/

/-- A future bar whose high satisfies both long barriers at once. -/
def tieBar : Bar :=
  { high := 5, low := 0, close := 0, atr := none, vol_ratio := none, trend_strength := none }

/-- A future bar that touches neither barrier of the C6 witness. -/
def quietBar : Bar :=
  { high := 3/2, low := 5/4, close := 0, atr := none, vol_ratio := none, trend_strength := none }

/-- Entry bar with valid ATR but NaN vol_ratio and trend_strength. -/
def nanVolBar : Bar :=
  { high := 100, low := 100, close := 100, atr := some 1, vol_ratio := none,
    trend_strength := none }

/-- A future bar that hits the long take-profit and the short
stop-loss. -/
def hitBar : Bar :=
  { high := 103, low := 199/2, close := 100, atr := none, vol_ratio := none,
    trend_strength := none }

/-- A scored row with high long probability and valid ATR. -/
def demoRow : SignalRow := { prob := 4/5, close := 100, atr := some 2 }

/-- A scored row with probability 0.8, entry 100 and ATR 1. -/
def demoRow1 : SignalRow := { prob := 4/5, close := 100, atr := some 1 }

/-- Row list for the emitted-signal invariant witness. -/
def demoRows : List SignalRow := [demoRow1]

/-- A feature row with valid ATR but NaN vol_ratio: dropped by the
dropna filter in inference mode. -/
def nanFeatureRow : FeatureRow :=
  { prob := 4/5, close := 100, atr := some 1, vol_ratio := none,
    trend_strength := some 0 }

/-- A fully valid feature row. -/
def demoFeatureRow : FeatureRow :=
  { prob := 4/5, close := 100, atr := some 1, vol_ratio := some 1,
    trend_strength := some 0 }

/-- The signal emitted for demoRow1 at the default configuration. -/
def demoSignal : Signal :=
  { direction := Direction.LONG
    confidence := 4/5
    prob_long := 4/5
    entry_price := 100
    tp_price := 100 + 9/5 * 1
    sl_price := 100 - 1 * 1
    atr := 1
    risk_reward := 9/5 / 1 }

/-! ### Claim theorems -/

/-- C2: for every entry index with valid ATR, the forward scan examines
exactly the bars at offsets entry+1 through min(entry+horizon, last)
inclusive, in increasing index order, reading only actual series bars
(never the entry bar, never past the end); the loop returns, for the
long and the short hypothesis independently, the index and kind of the
first bar of that window whose barrier condition holds, or none if no
bar of the window triggers it. -/
theorem C2_forward_scan :
    ∀ (bars : List Bar) (i horizon : ℕ) (tpL slL tpS slS : ℚ),
      (∀ j : ℕ, j ∈ (windowBars bars i horizon).map Prod.fst ↔
        (i + 1 ≤ j ∧ j ≤ i + horizon ∧ j < bars.length)) ∧
      List.Pairwise (· < ·) ((windowBars bars i horizon).map Prod.fst) ∧
      (∀ p ∈ windowBars bars i horizon, bars.get? p.1 = some p.2) ∧
      scanPair tpL slL tpS slS (windowBars bars i horizon) none none =
        (firstHitLong tpL slL (windowBars bars i horizon),
          firstHitShort tpS slS (windowBars bars i horizon)) ∧
      (firstHitLong tpL slL (windowBars bars i horizon) = none ↔
        ∀ p ∈ windowBars bars i horizon, p.2.high < tpL ∧ slL < p.2.low) ∧
      (firstHitShort tpS slS (windowBars bars i horizon) = none ↔
        ∀ p ∈ windowBars bars i horizon, tpS < p.2.low ∧ p.2.high < slS) ∧
      (∀ (w1 w2 : List (ℕ × Bar)) (p : ℕ × Bar),
        windowBars bars i horizon = w1 ++ p :: w2 →
        (∀ q ∈ w1, q.2.high < tpL ∧ slL < q.2.low) →
        (tpL ≤ p.2.high ∨ p.2.low ≤ slL) →
        firstHitLong tpL slL (windowBars bars i horizon) =
          some (p.1, if tpL ≤ p.2.high then HitKind.tp else HitKind.sl)) ∧
      (∀ (w1 w2 : List (ℕ × Bar)) (p : ℕ × Bar),
        windowBars bars i horizon = w1 ++ p :: w2 →
        (∀ q ∈ w1, tpS < q.2.low ∧ q.2.high < slS) →
        (p.2.low ≤ tpS ∨ slS ≤ p.2.high) →
        firstHitShort tpS slS (windowBars bars i horizon) =
          some (p.1, if p.2.low ≤ tpS then HitKind.tp else HitKind.sl)) := by
  intro bars i horizon tpL slL tpS slS
  refine ⟨?_, ?_, ?_, ?_, ?_, ?_, ?_, ?_⟩
  · intro j
    rw [map_fst_windowBars]
    exact mem_windowIdx_iff i horizon bars.length j
  · rw [map_fst_windowBars]
    exact pairwise_range' _ _
  · intro p hp
    obtain ⟨_, _, hlt, heq⟩ := (mem_windowBars_iff bars i horizon p).mp hp
    rw [heq]
    exact getD_eq_get? bars p.1 hlt
  · rw [scanPair_eq]
    rfl
  · exact firstHitLong_eq_none_iff tpL slL _
  · exact firstHitShort_eq_none_iff tpS slS _
  · intro w1 w2 p heq hq htrig
    rw [heq]
    exact firstHitLong_append tpL slL w1 p w2 hq htrig
  · intro w1 w2 p heq hq htrig
    rw [heq]
    exact firstHitShort_append tpS slS w1 p w2 hq htrig

/-- C2 witness: on a concrete three-bar series with entry index 0 and
horizon 5, the window is the indices 1 and 2, and the first-hit
characterization applied at the first window bar, whose high crosses
the long take-profit, resolves the long hypothesis there. -/
theorem C2_forward_scan_witness :
    (1 ∈ (windowBars [nanVolBar, tieBar, quietBar] 0 5).map Prod.fst ↔
      (0 + 1 ≤ 1 ∧ 1 ≤ 0 + 5 ∧ 1 < (3 : ℕ))) ∧
    firstHitLong 2 1 (windowBars [nanVolBar, tieBar, quietBar] 0 5) =
      some (1, HitKind.tp) := by
  constructor
  · have h := (C2_forward_scan [nanVolBar, tieBar, quietBar] 0 5 2 1 0 3).1 1
    simpa using h
  · have h := (C2_forward_scan [nanVolBar, tieBar, quietBar] 0 5 2 1 0 3).2.2.2.2.2.2.1
      [] [(2, quietBar)] (1, tieBar) (by rfl) (by simp)
      (Or.inl (by norm_num [tieBar]))
    rw [h, if_pos (by norm_num [tieBar])]

/-- C3: at the configured defaults (tp default 1.8, sl default 1.0,
baseline horizon 10, min-horizon 3), the selected take-profit multiple
is 2.5 when trend-strength exceeds 30, else 1.5 when the volatility
ratio is below 0.8, else 1.8; the stop-loss multiple is always the
configured default; and the selected horizon matches the spec formula
with rounding (max(3, round(5)) = 5 above 1.5, max(3, round(7)) = 7
above 1.2, min(round(13), 13) = 13 below 0.8, else 10). -/
theorem C3_parameter_selection :
    ∀ vr ts : ℚ,
      selectTpMult defaultConfig vr ts = specTpMult vr ts ∧
      selectSlMult defaultConfig vr ts = defaultConfig.sl_atr_mult ∧
      selectHorizon defaultConfig vr =
        specHorizon defaultConfig.min_horizon defaultConfig.max_horizon vr := by
  intro vr ts
  refine ⟨rfl, rfl, ?_⟩
  have f1 : Nat.floor ((10 : ℚ) * (1/2)) = 5 := by norm_num
  have f2 : Nat.floor ((10 : ℚ) * (7/10)) = 7 := by norm_num
  have f3 : Nat.floor ((10 : ℚ) * (13/10)) = 13 := by norm_num
  have r1 : (round ((10 : ℚ) * (1/2))).toNat = 5 := by
    rw [show round ((10 : ℚ) * (1/2)) = 5 by norm_num]
    rfl
  have r2 : (round ((10 : ℚ) * (7/10))).toNat = 7 := by
    rw [show round ((10 : ℚ) * (7/10)) = 7 by norm_num]
    rfl
  have r3 : (round ((10 : ℚ) * (13/10))).toNat = 13 := by
    rw [show round ((10 : ℚ) * (13/10)) = 13 by norm_num]
    rfl
  show selectHorizon defaultConfig vr = specHorizon 3 10 vr
  unfold selectHorizon specHorizon
  have hc : ((defaultConfig.max_horizon : ℕ) : ℚ) = (10 : ℚ) := by
    norm_num [defaultConfig]
  have hc2 : (((10 : ℕ)) : ℚ) = (10 : ℚ) := by norm_num
  rw [show defaultConfig.min_horizon = 3 from rfl]
  rw [hc, hc2, f1, f2, f3, r1, r2, r3]
  rfl

/-- C5: on the first triggering bar of the window, a bar satisfying
both the long take-profit and the long stop-loss condition resolves
the long hypothesis as a take-profit hit, never a stop-loss; and
symmetrically a bar satisfying both short conditions resolves the
short hypothesis as a take-profit hit. -/
theorem C5_tp_priority :
    ∀ (tpL slL tpS slS : ℚ) (w1 w2 : List (ℕ × Bar)) (p : ℕ × Bar),
      ((∀ q ∈ w1, q.2.high < tpL ∧ slL < q.2.low) →
        tpL ≤ p.2.high → p.2.low ≤ slL →
        (scanPair tpL slL tpS slS (w1 ++ p :: w2) none none).1 =
          some (p.1, HitKind.tp)) ∧
      ((∀ q ∈ w1, tpS < q.2.low ∧ q.2.high < slS) →
        p.2.low ≤ tpS → slS ≤ p.2.high →
        (scanPair tpL slL tpS slS (w1 ++ p :: w2) none none).2 =
          some (p.1, HitKind.tp)) := by
  intro tpL slL tpS slS w1 w2 p
  constructor
  · intro hq h1 h2
    rw [scanPair_eq]
    show hitOr none (firstHitLong tpL slL (w1 ++ p :: w2)) = _
    show firstHitLong tpL slL (w1 ++ p :: w2) = _
    rw [firstHitLong_append tpL slL w1 p w2 hq (Or.inl h1), if_pos h1]
  · intro hq h1 h2
    rw [scanPair_eq]
    show hitOr none (firstHitShort tpS slS (w1 ++ p :: w2)) = _
    show firstHitShort tpS slS (w1 ++ p :: w2) = _
    rw [firstHitShort_append tpS slS w1 p w2 hq (Or.inl h1), if_pos h1]

/-- C5 witness: a concrete bar with high 5 and low 0 crosses the long
take-profit 2 and the long stop-loss 1 at once, and the loop resolves
the long hypothesis (and, with barriers 0 and 3, the short hypothesis)
as take-profit. -/
theorem C5_tp_priority_witness :
    (scanPair 2 1 0 3 [(1, tieBar)] none none).1 = some (1, HitKind.tp) ∧
    (scanPair 2 1 0 3 [(1, tieBar)] none none).2 = some (1, HitKind.tp) := by
  constructor
  · exact (C5_tp_priority 2 1 0 3 [] [] (1, tieBar)).1 (by simp)
      (by norm_num [tieBar]) (by norm_num [tieBar])
  · exact (C5_tp_priority 2 1 0 3 [] [] (1, tieBar)).2 (by simp)
      (by norm_num [tieBar]) (by norm_num [tieBar])

/-- C6: the resolver scores each outcome (+1 take-profit, -1 stop-loss,
0 no hit) and returns the sign of the comparison of the two scores;
and a window in which no bar ever reaches any of the four barriers
always resolves to label 0. -/
theorem C6_label_resolver :
    (∀ hL hS : Option (ℕ × HitKind),
      resolveLabel hL hS =
        if hitScore hL > hitScore hS then 1
        else if hitScore hS > hitScore hL then -1
        else 0) ∧
    (∀ (tpL slL tpS slS : ℚ) (w : List (ℕ × Bar)),
      (∀ p ∈ w, p.2.high < tpL ∧ slL < p.2.low ∧ tpS < p.2.low ∧ p.2.high < slS) →
      resolveLabel (scanPair tpL slL tpS slS w none none).1
        (scanPair tpL slL tpS slS w none none).2 = 0) := by
  constructor
  · intro hL hS
    cases hL with
    | none =>
      cases hS with
      | none => rfl
      | some q =>
        obtain ⟨m, k⟩ := q
        cases k <;> rfl
    | some q =>
      obtain ⟨j, k⟩ := q
      cases hS with
      | none => cases k <;> rfl
      | some q2 =>
        obtain ⟨m, k2⟩ := q2
        cases k <;> cases k2 <;> rfl
  · intro tpL slL tpS slS w hquiet
    have hL : firstHitLong tpL slL w = none :=
      (firstHitLong_eq_none_iff _ _ _).mpr
        (fun p hp => ⟨(hquiet p hp).1, (hquiet p hp).2.1⟩)
    have hS : firstHitShort tpS slS w = none :=
      (firstHitShort_eq_none_iff _ _ _).mpr
        (fun p hp => ⟨(hquiet p hp).2.2.1, (hquiet p hp).2.2.2⟩)
    rw [scanPair_eq]
    show resolveLabel (hitOr none (firstHitLong tpL slL w))
      (hitOr none (firstHitShort tpS slS w)) = 0
    show resolveLabel (firstHitLong tpL slL w) (firstHitShort tpS slS w) = 0
    rw [hL, hS]
    rfl

/-- C6 witness: a take-profit against a stop-loss resolves to +1, and
a one-bar window that touches none of the barriers 2, 1, 0, 3 resolves
to 0. -/
theorem C6_label_resolver_witness :
    resolveLabel (some (2, HitKind.tp)) (some (3, HitKind.sl)) = 1 ∧
    resolveLabel (scanPair 2 1 0 3 [(1, quietBar)] none none).1
      (scanPair 2 1 0 3 [(1, quietBar)] none none).2 = 0 := by
  constructor
  · rw [(C6_label_resolver).1 (some (2, HitKind.tp)) (some (3, HitKind.sl))]
    rfl
  · refine (C6_label_resolver).2 2 1 0 3 [(1, quietBar)] ?_
    intro p hp
    rw [List.mem_singleton] at hp
    subst hp
    norm_num [quietBar]

/-- C9: holding trend-strength and all configuration values fixed (for
any configuration whose horizon floor does not exceed its baseline
horizon), raising the volatility ratio from 1.0 to 1.6 never increases
the selected horizon. -/
theorem C9_horizon_monotone (cfg : Config)
    (h : cfg.min_horizon ≤ cfg.max_horizon) :
    selectHorizon cfg (8/5) ≤ selectHorizon cfg 1 := by
  have h1 : selectHorizon cfg 1 = cfg.max_horizon := by
    unfold selectHorizon
    norm_num
  have h2 : selectHorizon cfg (8/5) =
      max cfg.min_horizon (Nat.floor ((cfg.max_horizon : ℚ) * (1/2))) := by
    unfold selectHorizon
    norm_num
  rw [h1, h2]
  have hf : Nat.floor ((cfg.max_horizon : ℚ) * (1/2)) ≤ cfg.max_horizon := by
    have hle : ((cfg.max_horizon : ℚ) * (1/2)) ≤ ((cfg.max_horizon : ℕ) : ℚ) := by
      have : (0 : ℚ) ≤ (cfg.max_horizon : ℚ) := Nat.cast_nonneg _
      linarith
    calc Nat.floor ((cfg.max_horizon : ℚ) * (1/2)) ≤
        Nat.floor (((cfg.max_horizon : ℕ) : ℚ)) := Nat.floor_le_floor hle
      _ = cfg.max_horizon := Nat.floor_natCast _
  exact max_le h hf

/-- C9 witness: at the default configuration the horizon selected at
volatility ratio 1.6 (= 5) is at most the one selected at 1.0 (= 10). -/
theorem C9_horizon_monotone_witness :
    defaultConfig.min_horizon ≤ defaultConfig.max_horizon ∧
    selectHorizon defaultConfig (8/5) ≤ selectHorizon defaultConfig 1 :=
  ⟨by decide, C9_horizon_monotone defaultConfig (by decide)⟩

/-- C4: with a valid ATR, a probability at or above the threshold gives
a LONG signal with confidence p, target entry + tp*atr, stop
entry - sl*atr; otherwise a probability at or below 1 - threshold
gives a SHORT signal with confidence 1 - p and mirrored levels;
otherwise no signal is emitted; and every emitted signal carries
risk-reward tp_mult / sl_mult regardless of direction. -/
theorem C4_signal_decision :
    ∀ (cfg : Config) (t : ℚ) (r : SignalRow) (a : ℚ),
      r.atr = some a → a ≠ 0 →
      ((t ≤ r.prob → signalForRow cfg t r = some
        { direction := Direction.LONG
          confidence := r.prob
          prob_long := r.prob
          entry_price := r.close
          tp_price := r.close + cfg.tp_atr_mult * a
          sl_price := r.close - cfg.sl_atr_mult * a
          atr := a
          risk_reward := cfg.tp_atr_mult / cfg.sl_atr_mult }) ∧
      (¬ t ≤ r.prob → r.prob ≤ 1 - t → signalForRow cfg t r = some
        { direction := Direction.SHORT
          confidence := 1 - r.prob
          prob_long := r.prob
          entry_price := r.close
          tp_price := r.close - cfg.tp_atr_mult * a
          sl_price := r.close + cfg.sl_atr_mult * a
          atr := a
          risk_reward := cfg.tp_atr_mult / cfg.sl_atr_mult }) ∧
      (¬ t ≤ r.prob → ¬ r.prob ≤ 1 - t → signalForRow cfg t r = none) ∧
      (∀ s : Signal, signalForRow cfg t r = some s →
        s.risk_reward = cfg.tp_atr_mult / cfg.sl_atr_mult)) := by
  intro cfg t r a ha haz
  refine ⟨?_, ?_, ?_, ?_⟩
  · intro h
    exact signalForRow_long cfg t r a ha haz h
  · intro h1 h2
    exact signalForRow_short cfg t r a ha haz h1 h2
  · intro h1 h2
    exact signalForRow_none cfg t r h1 h2
  · intro s hs
    exact signalForRow_risk cfg t r s hs

/-- C4 witness: probability 0.8 at threshold 0.7 with ATR 2 emits the
LONG record with target 100 + 1.8*2 and stop 100 - 1.0*2. -/
theorem C4_signal_decision_witness :
    demoRow.atr = some 2 ∧ (2 : ℚ) ≠ 0 ∧ (7/10 : ℚ) ≤ demoRow.prob ∧
    signalForRow defaultConfig (7/10) demoRow = some
      { direction := Direction.LONG
        confidence := demoRow.prob
        prob_long := demoRow.prob
        entry_price := demoRow.close
        tp_price := demoRow.close + defaultConfig.tp_atr_mult * 2
        sl_price := demoRow.close - defaultConfig.sl_atr_mult * 2
        atr := 2
        risk_reward := defaultConfig.tp_atr_mult / defaultConfig.sl_atr_mult } := by
  refine ⟨rfl, by norm_num, by norm_num [demoRow], ?_⟩
  exact (C4_signal_decision defaultConfig (7/10) demoRow 2 rfl (by norm_num)).1
    (by norm_num [demoRow])

/-- C10: every emitted signal record is LONG or SHORT (a NONE decision
is never emitted), has confidence at least the threshold in effect,
and its prob_long is at least the threshold when LONG and at most
1 - threshold when SHORT. -/
theorem C10_emitted_signal_invariants :
    ∀ (cfg : Config) (t : ℚ) (rows : List SignalRow) (s : Signal),
      s ∈ generateSignals cfg t rows →
      (s.direction = Direction.LONG ∨ s.direction = Direction.SHORT) ∧
      t ≤ s.confidence ∧
      (s.direction = Direction.LONG → t ≤ s.prob_long) ∧
      (s.direction = Direction.SHORT → s.prob_long ≤ 1 - t) := by
  intro cfg t rows s hs
  obtain ⟨r, _, hr⟩ := List.mem_filterMap.mp hs
  obtain ⟨hp, hcases⟩ := signalForRow_some_elim cfg t r s hr
  rcases hcases with ⟨h1, hdir, hconf⟩ | ⟨_, h2, hdir, hconf⟩
  · refine ⟨Or.inl hdir, ?_, ?_, ?_⟩
    · rw [hconf]
      exact h1
    · intro _
      rw [hp]
      exact h1
    · intro hd
      rw [hdir] at hd
      exact Direction.noConfusion hd
  · refine ⟨Or.inr hdir, ?_, ?_, ?_⟩
    · rw [hconf]
      linarith
    · intro hd
      rw [hdir] at hd
      exact Direction.noConfusion hd
    · intro _
      rw [hp]
      exact h2

/-- C10 witness: the one signal emitted from the demo row list
satisfies all three invariants at threshold 0.7. -/
theorem C10_emitted_signal_invariants_witness :
    demoSignal ∈ generateSignals defaultConfig (7/10) demoRows ∧
    (demoSignal.direction = Direction.LONG ∨
      demoSignal.direction = Direction.SHORT) ∧
    (7/10 : ℚ) ≤ demoSignal.confidence ∧
    (demoSignal.direction = Direction.LONG → (7/10 : ℚ) ≤ demoSignal.prob_long) ∧
    (demoSignal.direction = Direction.SHORT →
      demoSignal.prob_long ≤ 1 - 7/10) := by
  have hrow : signalForRow defaultConfig (7/10) demoRow1 = some demoSignal := by
    rw [signalForRow_long defaultConfig (7/10) demoRow1 1 rfl (by norm_num)
      (by norm_num [demoRow1])]
    rfl
  have hmem : demoSignal ∈ generateSignals defaultConfig (7/10) demoRows := by
    unfold generateSignals demoRows
    rw [List.filterMap_cons, hrow]
    exact List.mem_singleton.mpr rfl
  exact ⟨hmem,
    C10_emitted_signal_invariants defaultConfig (7/10) demoRows demoSignal hmem⟩

/-- C1: the barrier-parameter logic is NOT identical between labeling
and signal generation: at a regime snapshot with trend-strength 40,
training-time labeling selects take-profit multiple 2.5 and target
entry + 2.5*atr, while signal generation emits target entry + 1.8*atr
(the flat configured TP_ATR_MULT), and the two targets differ. -/
theorem C1_barrier_param_skew :
    selectTpMult defaultConfig 1 40 = 5/2 ∧
    (signalForRow defaultConfig (7/10) demoRow1).map Signal.tp_price =
      some (100 + 9/5 * 1) ∧
    (100 : ℚ) + selectTpMult defaultConfig 1 40 * 1 ≠ 100 + 9/5 * 1 := by
  refine ⟨by norm_num [selectTpMult], ?_, ?_⟩
  · rw [signalForRow_long defaultConfig (7/10) demoRow1 1 rfl (by norm_num)
      (by norm_num [demoRow1])]
    rfl
  · rw [show selectTpMult defaultConfig 1 40 = 5/2 by norm_num [selectTpMult]]
    norm_num

/-- C7 counterexample: a bar with valid ATR but NaN vol_ratio and NaN
trend_strength is not skipped: the labeler processes it and assigns
label +1 (not the neutral 0 the claim requires). -/
theorem C7_counterexample :
    nanVolBar.vol_ratio = none ∧ nanVolBar.trend_strength = none ∧
    labelAt defaultConfig [nanVolBar, hitBar] 0 = 1 ∧
    labelAt defaultConfig [nanVolBar, hitBar] 0 ≠ 0 := by
  have h3 : labelAt defaultConfig [nanVolBar, hitBar] 0 = 1 := by
    unfold labelAt
    rw [show ([nanVolBar, hitBar].getD 0 dummyBar) = nanVolBar from rfl]
    rw [labelCore_eval defaultConfig [nanVolBar, hitBar] 0 nanVolBar 1 rfl
      (by norm_num) (by decide)]
    rw [show nanVolBar.vol_ratio.getD 1 = 1 from rfl,
      show nanVolBar.trend_strength.getD 0 = 0 from rfl,
      show nanVolBar.close = (100 : ℚ) from rfl]
    rw [show selectTpMult defaultConfig 1 0 = 9/5 by
        norm_num [selectTpMult, defaultConfig],
      show selectSlMult defaultConfig 1 0 = 1 from rfl,
      show selectHorizon defaultConfig 1 = 10 by
        norm_num [selectHorizon, defaultConfig]]
    rw [show windowBars [nanVolBar, hitBar] 0 10 = [(1, hitBar)] from rfl]
    simp only [scanPair_eq]
    have hfl : firstHitLong (100 + 9/5 * 1) (100 - 1 * 1) [(1, hitBar)] =
        some (1, HitKind.tp) := by
      unfold firstHitLong
      rw [if_pos (by norm_num [hitBar] : ((1 : ℕ), hitBar).2.high ≥ 100 + 9/5 * 1)]
    have hfs : firstHitShort (100 - 9/5 * 1) (100 + 1 * 1) [(1, hitBar)] =
        some (1, HitKind.sl) := by
      unfold firstHitShort
      rw [if_neg (by norm_num [hitBar]), if_pos (by norm_num [hitBar])]
    rw [hfl, hfs]
    rfl
  exact ⟨rfl, rfl, h3, by rw [h3]; norm_num⟩

/-- C7 amended: in training mode a bar whose ATR is NaN or zero is
skipped (label 0 without scanning), while a NaN vol_ratio or
trend_strength does NOT skip the bar there — the value is replaced by
its neutral default (1.0 / 0.0) and the bar is labeled normally; in
inference mode no signal is emitted for a bar with NaN atr, vol_ratio
or trend_strength (the dropna feature filter removes the row, and a
NaN or zero ATR row is also stopped by the explicit check); processing
of the remaining bars continues in both modes (one label per input
bar, the signal list of the other rows unchanged). -/
theorem C7_amended_skip_rules :
    ∀ (cfg : Config) (bars : List Bar) (i : ℕ) (b : Bar) (t : ℚ) (r : SignalRow)
      (pre post : List FeatureRow) (fr : FeatureRow),
      (b.atr = none → labelCore cfg bars i b = 0) ∧
      (b.atr = some 0 → labelCore cfg bars i b = 0) ∧
      labelCore cfg bars i { b with vol_ratio := none } =
        labelCore cfg bars i { b with vol_ratio := some 1 } ∧
      labelCore cfg bars i { b with trend_strength := none } =
        labelCore cfg bars i { b with trend_strength := some 0 } ∧
      (r.atr = none ∨ r.atr = some 0 → signalForRow cfg t r = none) ∧
      (fr.atr = none ∨ fr.vol_ratio = none ∨ fr.trend_strength = none →
        generateSignalsFeatures cfg t (pre ++ fr :: post) =
          generateSignalsFeatures cfg t (pre ++ post)) ∧
      (labelSeries cfg bars).length = bars.length := by
  intro cfg bars i b t r pre post fr
  exact ⟨labelCore_atr_none cfg bars i b, labelCore_atr_zero cfg bars i b,
    labelCore_vol_default cfg bars i b, labelCore_trend_default cfg bars i b,
    signalForRow_atr_invalid cfg t r,
    generateSignalsFeatures_drops_nan cfg t pre post fr, by simp [labelSeries]⟩

/-- C7 amended witness: a NaN-ATR bar is labeled 0, a NaN-ATR row
emits no signal, and a row with NaN vol_ratio is dropped by the
inference filter without affecting the other rows' signals. -/
theorem C7_amended_skip_rules_witness :
    dummyBar.atr = none ∧ labelCore defaultConfig [] 0 dummyBar = 0 ∧
    signalForRow defaultConfig (7/10)
      { prob := 4/5, close := 100, atr := none } = none ∧
    nanFeatureRow.vol_ratio = none ∧
    generateSignalsFeatures defaultConfig (7/10) [nanFeatureRow, demoFeatureRow] =
      generateSignalsFeatures defaultConfig (7/10) [demoFeatureRow] := by
  refine ⟨rfl, ?_, ?_, rfl, ?_⟩
  · exact (C7_amended_skip_rules defaultConfig [] 0 dummyBar (7/10) demoRow1
      [] [] nanFeatureRow).1 rfl
  · exact (C7_amended_skip_rules defaultConfig [] 0 dummyBar (7/10)
      { prob := 4/5, close := 100, atr := none } [] [] nanFeatureRow).2.2.2.2.1
      (Or.inl rfl)
  · exact (C7_amended_skip_rules defaultConfig [] 0 dummyBar (7/10) demoRow1
      [] [demoFeatureRow] nanFeatureRow).2.2.2.2.2.1 (Or.inr (Or.inl rfl))

/-- C8: nothing rejects an inconsistent configuration: the decision
logic accepts a threshold of 0.4 (below the 0.5 consistency bound) and
then, mid-run, maps every probability to a directional decision — the
no-trade zone is empty instead of the configuration being refused at
load time. -/
theorem C8_threshold_not_validated :
    ∀ p : ℚ, (decideDirection (2/5) p).1 ≠ Direction.NONE := by
  intro p
  by_cases h : (2/5 : ℚ) ≤ p
  · rw [decideDirection_long _ _ h]
    simp
  · rw [decideDirection_short _ _ h (by
      have := not_le.mp h
      linarith)]
    simp

end ForexEngine
